import Mathlib

/-!
Verification of the Governance & Internal Audit API backend (`src/main.py`,
`src/schemas.py`) against its natural-language specification.

The repository's `database.py` (Record Store), together with the external
`passlib` (Credential Store) and `jwt` (Token Service) libraries, is not under
`src/`; those collaborators are modelled from the spec (sections 4.1, 4.2 and
6) and marked as such in their doc comments.  Everything else is translated
directly from the Python source.  Python `datetime` payload fields are carried
as `Option Nat` timestamps; they are never computed on.
-/

set_option autoImplicit false

/-- Python `str.split(sep)` for a one-character separator: splits on every
occurrence, keeping empty pieces, and returns `[[]]` on the empty string. -/
def pySplitChar (sep : Char) : List Char → List (List Char)
  | [] => [[]]
  | c :: cs =>
    if c = sep then [] :: pySplitChar sep cs
    else
      match pySplitChar sep cs with
      | [] => [[c]]
      | w :: ws => (c :: w) :: ws

/-- Python `authorization.split(" ")` on a `String`. -/
def pySplitSpace (s : String) : List String :=
  (pySplitChar ' ' s.toList).map String.mk

/-- Python `str.lower()` (ASCII is all the source compares). -/
def pyLower (s : String) : String :=
  String.mk (s.toList.map Char.toLower)

/-- Python string truthiness test used by `payload.name or default`. -/
def pyOr (o : Option String) (default : String) : String :=
  match o with
  | some n => if n = "" then default else n
  | none => default

/-- `startsWith` on the character-list representation of strings. -/
def pyStartsWith (pre s : String) : Bool :=
  pre.toList.isPrefixOf s.toList

/-- An HTTP error as raised by `HTTPException(status_code, detail)`. -/
structure HttpError where
  status : Nat
  detail : String
deriving DecidableEq

-- ---------- Data model (from src/schemas.py, plus the store-assigned _id) ----------

/-- Users collection schema (`schemas.User`) with the store-assigned `_id`. -/
structure UserRec where
  _id : String
  name : String
  email : String
  hashed_password : String
  role : String
  is_active : Bool
deriving DecidableEq

/-- Project record (`schemas.Project`) with the store-assigned `_id`. -/
structure ProjectRec where
  _id : String
  name : String
  description : Option String
  owner_id : Option String
  status : String
deriving DecidableEq

/-- Scorecard metric record (`schemas.ScorecardMetric`) with `_id`. -/
structure MetricRec where
  _id : String
  project_id : String
  title : String
  description : Option String
  target_value : Float
  current_value : Float
  unit : String
  due_date : Option Nat

/-- Comment record (`schemas.Comment`) with `_id`. -/
structure CommentRec where
  _id : String
  project_id : String
  timeline_item_id : Option String
  task_id : Option String
  author_id : Option String
  content : String
deriving DecidableEq

/-- Document metadata record (`schemas.Document`) with `_id`. -/
structure DocRec where
  _id : String
  project_id : String
  timeline_item_id : Option String
  task_id : Option String
  name : String
  url : String
  uploaded_by : Option String
deriving DecidableEq

/-- Modelled from the spec: the Record Store state (`database.py` is not under
`src/`).  Section 6 gives its contract — `insert(collectionName, record) -> id`
and `query(collectionName, equalityFilter, limit?)`.  One list per collection
the claims touch (the remaining child collections are structurally identical),
plus a counter supplying fresh store-assigned ids. -/
structure Store where
  users : List UserRec
  projects : List ProjectRec
  metrics : List MetricRec
  comments : List CommentRec
  documents : List DocRec
  nextId : Nat

/-- The empty store. -/
def store0 : Store := ⟨[], [], [], [], [], 0⟩

-- ---------- Credential Store (spec section 4.1) ----------

/-- Credential Store failure. -/
inductive CredErr where
  | emptyPassword
deriving DecidableEq

/-- Modelled from the spec: `hash_password` delegates to passlib's
`CryptContext.hash` (external, not under `src/`).  Section 4.1: a salted
one-way hash, failing with `CredentialError` on empty input.  The hash is
modelled as a tagged copy of the plaintext, which is exactly as one-way as
the proofs require and lets `verify` recognise it. -/
def hash_password (password : String) : Except CredErr String :=
  if password = "" then .error .emptyPassword
  else .ok ("bcrypt$" ++ password)

/-- Modelled from the spec: `verify_password` delegates to passlib's
`CryptContext.verify` (external, not under `src/`).  Section 4.1: total,
never throws on a malformed hash, returns false instead. -/
def verify_password (password hashed : String) : Bool :=
  hashed == "bcrypt$" ++ password

-- ---------- Token Service (spec section 4.2, src create_access_token) ----------

/-- Modelled from the spec: a session token is a self-contained signed
assertion of subject and expiry (section 3); the signature of the symmetric
single-secret scheme (section 4.2) is modelled by carrying the signing key. -/
structure SessionToken where
  subject : String
  expiry : Nat
  sig : String
deriving DecidableEq

/-- Token Service failure (spec section 4.2 `TokenError`). -/
inductive TokenErr where
  | invalidSignature
  | malformed
  | expired
deriving DecidableEq

/-- Message text carried by each `TokenErr`, as leaked into the 401 detail. -/
def TokenErr.msg : TokenErr → String
  | .invalidSignature => "Signature verification failed"
  | .malformed => "Not enough segments"
  | .expired => "Signature has expired"

/-- `ACCESS_TOKEN_EXPIRE_MINUTES = 60 * 8` from src/main.py. -/
def ACCESS_TOKEN_EXPIRE_MINUTES : Nat := 60 * 8

/-- `create_access_token` from src/main.py: the payload is `{sub, exp}` with
`exp = now + (expires_delta or the 8-hour default)`, signed with the
process-wide secret (`jwt.encode` modelled per spec section 4.2).  Python `or`
tests truthiness, and `timedelta(0)` is falsy, so both a missing and a
zero `expires_delta` fall back to the default.  Times are in seconds. -/
def create_access_token (sub : String) (expires_delta : Option Nat)
    (now : Nat) (secret : String) : SessionToken :=
  { subject := sub
    expiry := now +
      (match expires_delta with
        | some d => if d = 0 then ACCESS_TOKEN_EXPIRE_MINUTES * 60 else d
        | none => ACCESS_TOKEN_EXPIRE_MINUTES * 60)
    sig := secret }

/-- Modelled from the spec: token verification (`jwt.decode`, external).
Section 4.2: fails when the signature is invalid or the expiry has passed;
expiry is strict — a token is already invalid at its expiry instant. -/
def verifyToken (t : SessionToken) (secret : String) (now : Nat) :
    Except TokenErr String :=
  if t.sig ≠ secret then .error .invalidSignature
  else if t.expiry ≤ now then .error .expired
  else .ok t.subject

/-- `TokenResponse` from src/main.py. -/
structure TokenResponse where
  access_token : SessionToken
  token_type : String
deriving DecidableEq

/-- `AuthPayload` from src/main.py. -/
structure AuthPayload where
  email : String
  password : String
  name : Option String
deriving DecidableEq

-- ---------- Auth endpoints (src/main.py register / login) ----------

/-- `register` from src/main.py.  A pre-check rejects duplicate emails with
400 before anything is written; otherwise the password is hashed, the user is
stored (first user ever gets role "admin", everyone after "member", name
defaults to the email's local part via Python `or`), and a token is minted.
The returned store is unchanged on every error path; a `CredErr` from hashing
would propagate as an unhandled 500. -/
def register (s : Store) (now : Nat) (secret : String) (payload : AuthPayload) :
    Store × Except HttpError TokenResponse :=
  if ((s.users.filter (fun u => u.email == payload.email)).take 1).isEmpty = false then
    (s, .error ⟨400, "Email already registered"⟩)
  else
    match hash_password payload.password with
    | .error _ => (s, .error ⟨500, "Internal Server Error"⟩)
    | .ok hashed =>
      let u : UserRec :=
        { _id := toString s.nextId
          name := pyOr payload.name (String.mk ((pySplitChar '@' payload.email.toList).headD []))
          email := payload.email
          hashed_password := hashed
          role := if s.users.isEmpty then "admin" else "member"
          is_active := true }
      ({ s with users := s.users ++ [u], nextId := s.nextId + 1 },
       .ok { access_token := create_access_token payload.email none now secret
             token_type := "bearer" })

/-- `login` from src/main.py: look up the first user with the given email
(limit-1 query), check the password, mint a token.  Reads only. -/
def login (s : Store) (now : Nat) (secret : String) (payload : AuthPayload) :
    Except HttpError TokenResponse :=
  match ((s.users.filter (fun u => u.email == payload.email)).take 1).head? with
  | none => .error ⟨401, "Invalid credentials"⟩
  | some u =>
    if verify_password payload.password u.hashed_password = false then
      .error ⟨401, "Invalid credentials"⟩
    else
      .ok { access_token := create_access_token payload.email none now secret
            token_type := "bearer" }

-- ---------- Access gate (src/main.py get_current_user) ----------

/-- `get_current_user` from src/main.py.  `decode` stands for
`jwt.decode(token, JWT_SECRET, ...)` returning the `sub` claim; the rest is a
direct translation: Python `if not authorization` treats an empty header the
same as a missing one, `authorization.split(" ")` must yield exactly two
pieces (the ValueError text otherwise is CPython's), the scheme is compared
case-insensitively against "bearer", a missing/empty `sub` and an unknown
user each fail, and every failure surfaces as 401 with the caught exception
text appended to "Invalid token: ". -/
def get_current_user (decode : String → Except TokenErr String) (s : Store)
    (authorization : Option String) : Except HttpError UserRec :=
  match authorization with
  | none => .error ⟨401, "Missing Authorization header"⟩
  | some h =>
    if h = "" then .error ⟨401, "Missing Authorization header"⟩
    else
      match pySplitSpace h with
      | [scheme, tok] =>
        if pyLower scheme ≠ "bearer" then
          .error ⟨401, "Invalid token: Invalid auth scheme"⟩
        else
          match decode tok with
          | .error e => .error ⟨401, "Invalid token: " ++ e.msg⟩
          | .ok sub =>
            if sub = "" then .error ⟨401, "Invalid token: Invalid token"⟩
            else
              match ((s.users.filter (fun u => u.email == sub)).take 1).head? with
              | none => .error ⟨401, "Invalid token: User not found"⟩
              | some u => .ok u
      | [_] => .error ⟨401, "Invalid token: not enough values to unpack (expected 2, got 1)"⟩
      | _ => .error ⟨401, "Invalid token: too many values to unpack (expected 2)"⟩

/-- A protected endpoint: FastAPI's `Depends(get_current_user)` runs the gate
before the handler body, so on any authentication failure the handler never
runs and the store is untouched. -/
def protectedEndpoint {α : Type} (decode : String → Except TokenErr String)
    (handler : UserRec → Store → Store × α) (authorization : Option String)
    (s : Store) : Store × Except HttpError α :=
  match get_current_user decode s authorization with
  | .error e => (s, .error e)
  | .ok u =>
    let r := handler u s
    (r.1, .ok r.2)

-- ---------- Projects (src/main.py create_project / list_projects) ----------

/-- `ProjectIn` from src/main.py: the request body carries no owner field. -/
structure ProjectIn where
  name : String
  description : Option String
deriving DecidableEq

/-- `create_project` from src/main.py: builds the `Project` with
`owner_id = str(current_user["_id"])` and default status "active", inserts it
(`create_document` assigns the id), returns the stored record. -/
def create_project (s : Store) (current_user : UserRec) (data : ProjectIn) :
    Store × ProjectRec :=
  let p : ProjectRec :=
    { _id := toString s.nextId
      name := data.name
      description := data.description
      owner_id := some current_user._id
      status := "active" }
  ({ s with projects := s.projects ++ [p], nextId := s.nextId + 1 }, p)

/-- `list_projects` from src/main.py: equality-filter query on
`owner_id = str(current_user["_id"])`. -/
def list_projects (s : Store) (current_user : UserRec) : List ProjectRec :=
  s.projects.filter (fun p => p.owner_id == some current_user._id)

-- ---------- Metrics (src/main.py add_metric / get_metrics) ----------

/-- `MetricIn` from src/main.py. -/
structure MetricIn where
  project_id : String
  title : String
  description : Option String
  target_value : Float
  current_value : Float
  unit : String
  due_date : Option Nat

/-- `add_metric` from src/main.py: the metric is built from the request body
alone; the authenticated user is required by the gate but never consulted. -/
def add_metric (s : Store) (current_user : UserRec) (data : MetricIn) :
    Store × MetricRec :=
  let m : MetricRec :=
    { _id := toString s.nextId
      project_id := data.project_id
      title := data.title
      description := data.description
      target_value := data.target_value
      current_value := data.current_value
      unit := data.unit
      due_date := data.due_date }
  ({ s with metrics := s.metrics ++ [m], nextId := s.nextId + 1 }, m)

/-- `get_metrics` from src/main.py: filters on `project_id` only; the
authenticated user is never consulted. -/
def get_metrics (s : Store) (current_user : UserRec) (project_id : String) :
    List MetricRec :=
  s.metrics.filter (fun m => m.project_id == project_id)

-- ---------- Comments and documents (src/main.py add_comment / add_document) ----------

/-- `CommentIn` from src/main.py: no author field. -/
structure CommentIn where
  project_id : String
  content : String
  timeline_item_id : Option String
  task_id : Option String
deriving DecidableEq

/-- `add_comment` from src/main.py: `author_id = str(current_user["_id"])`
is stamped by the server on top of the request body. -/
def add_comment (s : Store) (current_user : UserRec) (data : CommentIn) :
    Store × CommentRec :=
  let c : CommentRec :=
    { _id := toString s.nextId
      project_id := data.project_id
      timeline_item_id := data.timeline_item_id
      task_id := data.task_id
      author_id := some current_user._id
      content := data.content }
  ({ s with comments := s.comments ++ [c], nextId := s.nextId + 1 }, c)

/-- `DocumentIn` from src/main.py: no uploader field. -/
structure DocumentIn where
  project_id : String
  name : String
  url : String
  timeline_item_id : Option String
  task_id : Option String
deriving DecidableEq

/-- `add_document` from src/main.py: `uploaded_by = str(current_user["_id"])`
is stamped by the server on top of the request body. -/
def add_document (s : Store) (current_user : UserRec) (data : DocumentIn) :
    Store × DocRec :=
  let d : DocRec :=
    { _id := toString s.nextId
      project_id := data.project_id
      timeline_item_id := data.timeline_item_id
      task_id := data.task_id
      name := data.name
      url := data.url
      uploaded_by := some current_user._id }
  ({ s with documents := s.documents ++ [d], nextId := s.nextId + 1 }, d)

-- ---------- Sequenced registration (for the role-assignment claim) ----------

/-- True exactly when the endpoint result is a success. -/
def isOkB : Except HttpError TokenResponse → Bool
  | .ok _ => true
  | .error _ => false

/-- Run `register` over a list of payloads in order, threading the store. -/
def registerSeq (now : Nat) (secret : String) : Store → List AuthPayload → Store
  | s, [] => s
  | s, p :: ps => registerSeq now secret (register s now secret p).1 ps

/-- All registrations in the sequence succeed when run in order from `s`. -/
def allOk (now : Nat) (secret : String) : Store → List AuthPayload → Bool
  | _, [] => true
  | s, p :: ps =>
    isOkB (register s now secret p).2 && allOk now secret (register s now secret p).1 ps

-- ---------- Witness fixtures ----------

/-- A concrete user used as the authenticated caller in witnesses. -/
def uA : UserRec := ⟨"1", "U", "u@x", "bcrypt$pw", "member", true⟩

/-- A second concrete user, with a different store id. -/
def uB : UserRec := ⟨"2", "V", "v@x", "bcrypt$pw", "member", true⟩

/-- A concrete project-creation body. -/
def dA : ProjectIn := ⟨"Audit Q1", none⟩

-- ---------- C1: project ownership stamping and scoped listing ----------

/-- C1: `create_project` stamps the stored project's `owner_id` with the
authenticated user's id regardless of the request body, and `list_projects`
returns exactly the projects whose `owner_id` equals the caller's id: the
created project appears in the creator's listing and not in any other
user's. -/
theorem create_project_owner_scoped (s : Store) (u v : UserRec) (d : ProjectIn)
    (huv : u._id ≠ v._id) :
    ((create_project s u d).2).owner_id = some u._id ∧
    (create_project s u d).2 ∈ list_projects (create_project s u d).1 u ∧
    (create_project s u d).2 ∉ list_projects (create_project s u d).1 v ∧
    ∀ q : ProjectRec, q ∈ list_projects (create_project s u d).1 u ↔
      q ∈ (create_project s u d).1.projects ∧ q.owner_id = some u._id := by
  refine ⟨rfl, ?_, ?_, ?_⟩
  · simp [create_project, list_projects, List.mem_filter]
  · intro hmem
    rw [list_projects, List.mem_filter] at hmem
    have h2 := hmem.2
    simp [create_project] at h2
    exact huv h2
  · intro q
    simp [list_projects, List.mem_filter]

/-- C1 witness at concrete users with distinct ids. -/
theorem create_project_owner_scoped_witness :
    uA._id ≠ uB._id ∧
    (((create_project store0 uA dA).2).owner_id = some uA._id ∧
     (create_project store0 uA dA).2 ∈ list_projects (create_project store0 uA dA).1 uA ∧
     (create_project store0 uA dA).2 ∉ list_projects (create_project store0 uA dA).1 uB ∧
     ∀ q : ProjectRec, q ∈ list_projects (create_project store0 uA dA).1 uA ↔
       q ∈ (create_project store0 uA dA).1.projects ∧ q.owner_id = some uA._id) :=
  ⟨by decide, create_project_owner_scoped store0 uA uB dA (by decide)⟩

-- ---------- C2: child-record operations ignore the caller ----------

/-- C2: child-record operations are not ownership-checked — `add_metric` and
`get_metrics` compute the same result for every authenticated caller, and a
metric added by one user is returned by `get_metrics` called by any other. -/
theorem metric_ops_caller_independent (s : Store) (u v : UserRec) (d : MetricIn)
    (pid : String) :
    add_metric s u d = add_metric s v d ∧
    get_metrics s u pid = get_metrics s v pid ∧
    (add_metric s u d).2 ∈ get_metrics (add_metric s u d).1 v d.project_id := by
  refine ⟨rfl, rfl, ?_⟩
  simp [add_metric, get_metrics, List.mem_filter]

-- ---------- C10: authorship fields are server-stamped ----------

/-- C10: `add_comment` stores `author_id` equal to the authenticated user's id
and `add_document` stores `uploaded_by` equal to it, for every request body —
the bodies carry no such field, so no client value can influence them. -/
theorem authorship_server_stamped (s1 s2 : Store) (u : UserRec) (c : CommentIn)
    (d : DocumentIn) :
    ((add_comment s1 u c).2).author_id = some u._id ∧
    ((add_document s2 u d).2).uploaded_by = some u._id :=
  ⟨rfl, rfl⟩

-- ---------- C7: hashing fails on empty input, round-trips otherwise ----------

/-- C7: hashing the empty plaintext fails with a `CredentialError`; hashing any
non-empty plaintext succeeds and the produced hash is accepted by
`verify_password` for the same plaintext. -/
theorem hash_password_empty_fails_nonempty_roundtrip :
    hash_password "" = .error CredErr.emptyPassword ∧
    ∀ p : String, p ≠ "" →
      ∃ h, hash_password p = .ok h ∧ verify_password p h = true := by
  refine ⟨rfl, fun p hp => ⟨"bcrypt$" ++ p, ?_, ?_⟩⟩
  · rw [hash_password, if_neg hp]
  · simp [verify_password]

/-- C7 witness at the concrete plaintexts "" and "x". -/
theorem hash_password_empty_fails_nonempty_roundtrip_witness :
    ("x" : String) ≠ "" ∧
    hash_password "" = .error CredErr.emptyPassword ∧
    ∃ h, hash_password "x" = .ok h ∧ verify_password "x" h = true :=
  ⟨by decide, hash_password_empty_fails_nonempty_roundtrip.1,
   hash_password_empty_fails_nonempty_roundtrip.2 "x" (by decide)⟩

-- ---------- C4: token round-trip and expiry ----------

/-- C4 counterexample: at ttl 0 the claim says verification fails at every
time at or after `issue_time + 0`, but `expires_delta or default` treats the
zero timedelta as falsy, so the program issues an 8-hour token that still
verifies at time 5. -/
theorem token_zero_ttl_counterexample :
    (0 : Nat) + 0 ≤ 5 ∧
    verifyToken (create_access_token "alice@x" (some 0) 0 "k") "k" 5 =
      .ok "alice@x" :=
  ⟨by decide, rfl⟩

/-- C4 as amended: for every non-zero time-to-live `d`, a token issued for
subject `subj` verifies to `subj` at every time strictly before
`issueTime + d` and fails with a `TokenError` at every time at or after it;
a zero time-to-live is falsy in Python and falls back to the default 8-hour
time-to-live, behaving exactly like an omitted one. -/
theorem token_round_trip (subj secret : String) (d issueTime now : Nat)
    (hd : d ≠ 0) :
    (now < issueTime + d →
      verifyToken (create_access_token subj (some d) issueTime secret) secret now =
        .ok subj) ∧
    (issueTime + d ≤ now →
      verifyToken (create_access_token subj (some d) issueTime secret) secret now =
        .error .expired) ∧
    create_access_token subj (some 0) issueTime secret =
      create_access_token subj none issueTime secret := by
  refine ⟨?_, ?_, rfl⟩
  · intro hlt
    have hnot : ¬ (issueTime + d ≤ now) := by omega
    simp [verifyToken, create_access_token, hd, hnot]
  · intro hle
    simp [verifyToken, create_access_token, hd, hle]

/-- C4 witness: a token with a 10-second ttl issued at time 0 verifies at
time 5, is rejected as expired at time 12, and the zero ttl falls back to
the default. -/
theorem token_round_trip_witness :
    (10 : Nat) ≠ 0 ∧
    (5 < 0 + 10 ∧
      verifyToken (create_access_token "alice@x" (some 10) 0 "k") "k" 5 =
        .ok "alice@x") ∧
    (0 + 10 ≤ 12 ∧
      verifyToken (create_access_token "alice@x" (some 10) 0 "k") "k" 12 =
        .error .expired) ∧
    create_access_token "alice@x" (some 0) 0 "k" =
      create_access_token "alice@x" none 0 "k" :=
  ⟨by decide,
   ⟨by decide, (token_round_trip "alice@x" "k" 10 0 5 (by decide)).1 (by decide)⟩,
   ⟨by decide, (token_round_trip "alice@x" "k" 10 0 12 (by decide)).2.1 (by decide)⟩,
   (token_round_trip "alice@x" "k" 10 0 12 (by decide)).2.2⟩

-- ---------- C5: duplicate registration is rejected atomically ----------

/-- C5: registering an email already present in the user store fails with
400 "Email already registered", the returned store is exactly the input store
(no user inserted), and no token is issued. -/
theorem register_duplicate_email_atomic (s : Store) (now : Nat) (secret : String)
    (payload : AuthPayload) (u : UserRec) (hu : u ∈ s.users)
    (he : u.email = payload.email) :
    register s now secret payload = (s, .error ⟨400, "Email already registered"⟩) := by
  have hf : u ∈ s.users.filter (fun x => x.email == payload.email) :=
    List.mem_filter.mpr ⟨hu, by simp [he]⟩
  rw [register]
  cases hfl : s.users.filter (fun x => x.email == payload.email) with
  | nil => rw [hfl] at hf; cases hf
  | cons a l => rfl

/-- A store holding one user, for the duplicate-registration witness. -/
def sA : Store := { store0 with users := [uA] }

/-- C5 witness: re-registering `uA`'s email is rejected and changes nothing. -/
theorem register_duplicate_email_atomic_witness :
    uA ∈ sA.users ∧
    uA.email = (AuthPayload.mk "u@x" "pw2" none).email ∧
    register sA 0 "k" ⟨"u@x", "pw2", none⟩ =
      (sA, .error ⟨400, "Email already registered"⟩) :=
  ⟨by decide, by decide,
   register_duplicate_email_atomic sA 0 "k" ⟨"u@x", "pw2", none⟩ uA (by decide) (by decide)⟩

-- ---------- C8: password verification is total; bad hash means 401 ----------

/-- C8: `verify_password` is a total function (it cannot raise), and on every
hash string outside the range of the hashing scheme it returns false for
every plaintext; consequently `login` against a stored user whose
`hashed_password` is malformed or absent (stored as "") answers
401 "Invalid credentials" rather than an unhandled error. -/
theorem verify_password_malformed_false (p h : String)
    (hm : ∀ q : String, h ≠ "bcrypt$" ++ q) :
    verify_password p h = false ∧
    ∀ (s : Store) (now : Nat) (secret : String) (e pw : String) (u : UserRec),
      ((s.users.filter (fun x => x.email == e)).take 1).head? = some u →
      u.hashed_password = h →
      login s now secret ⟨e, pw, none⟩ = .error ⟨401, "Invalid credentials"⟩ := by
  have hv : ∀ pw : String, verify_password pw h = false := by
    intro pw
    simp only [verify_password, beq_eq_false_iff_ne, ne_eq]
    exact hm pw
  refine ⟨hv p, ?_⟩
  intro s now secret e pw u hu hh
  rw [login]
  rw [hu]
  simp [hh, hv]

/-- A user whose stored password hash is absent (the empty string). -/
def uM : UserRec := ⟨"9", "M", "m@x", "", "member", true⟩

/-- A store holding only `uM`, for the malformed-hash witness. -/
def sM : Store := { store0 with users := [uM] }

/-- C8 witness: the empty string is not a well-formed hash, verification
against it returns false, and login for that stored user yields 401. -/
theorem verify_password_malformed_false_witness :
    (∀ q : String, ("" : String) ≠ "bcrypt$" ++ q) ∧
    verify_password "pw" "" = false ∧
    login sM 0 "k" ⟨"m@x", "pw", none⟩ = .error ⟨401, "Invalid credentials"⟩ := by
  have hm : ∀ q : String, ("" : String) ≠ "bcrypt$" ++ q := by
    intro q hq
    have hlen := congrArg String.length hq
    rw [String.length_append] at hlen
    rw [show ("" : String).length = 0 from rfl,
        show ("bcrypt$" : String).length = 7 from rfl] at hlen
    omega
  exact ⟨hm, (verify_password_malformed_false "pw" "" hm).1,
         (verify_password_malformed_false "pw" "" hm).2 sM 0 "k" "m@x" "pw" uM
           (by decide) (by decide)⟩

-- ---------- C3: first registrant is admin, the rest are members ----------

/-- A successful `register` appends exactly one user, whose role is "admin"
when the user store was empty and "member" otherwise. -/
theorem register_roles_snoc (s : Store) (now : Nat) (secret : String)
    (p : AuthPayload) (hok : isOkB (register s now secret p).2 = true) :
    (register s now secret p).1.users.map (fun u => u.role) =
      s.users.map (fun u => u.role) ++
        [if s.users.isEmpty then "admin" else "member"] := by
  by_cases hd : ((s.users.filter (fun u => u.email == p.email)).take 1).isEmpty = false
  · rw [register, if_pos hd] at hok
    simp [isOkB] at hok
  · cases hh : hash_password p.password with
    | error e =>
      rw [register, if_neg hd, hh] at hok
      simp [isOkB] at hok
    | ok hashed =>
      rw [register, if_neg hd, hh]
      simp

/-- A successful `register` leaves the user store non-empty. -/
theorem register_ok_users_ne_nil (s : Store) (now : Nat) (secret : String)
    (p : AuthPayload) (hok : isOkB (register s now secret p).2 = true) :
    (register s now secret p).1.users ≠ [] := by
  intro h0
  have hsnoc := register_roles_snoc s now secret p hok
  rw [h0] at hsnoc
  simp at hsnoc

/-- Every successful registration against a non-empty user store appends role
"member"; iterated over a payload list this adds one "member" per payload. -/
theorem registerSeq_roles_member (now : Nat) (secret : String) :
    ∀ (ps : List AuthPayload) (s : Store), s.users ≠ [] →
      allOk now secret s ps = true →
      (registerSeq now secret s ps).users.map (fun u => u.role) =
        s.users.map (fun u => u.role) ++ List.replicate ps.length "member"
  | [], s, _, _ => by simp [registerSeq]
  | p :: ps, s, hne, hok => by
    rw [allOk, Bool.and_eq_true] at hok
    obtain ⟨h1, h2⟩ := hok
    have hie : s.users.isEmpty = false := by
      cases hu : s.users with
      | nil => exact absurd hu hne
      | cons a l => rfl
    have hsnoc := register_roles_snoc s now secret p h1
    rw [hie] at hsnoc
    have hne1 : (register s now secret p).1.users ≠ [] :=
      register_ok_users_ne_nil s now secret p h1
    rw [registerSeq, registerSeq_roles_member now secret ps _ hne1 h2, hsnoc]
    simp [List.replicate_succ]

/-- C3: for every sequence of successful registrations from the empty store,
the first registered user is stored with role "admin" and every later one
with role "member". -/
theorem first_user_admin_rest_member (now : Nat) (secret : String)
    (ps : List AuthPayload) (hok : allOk now secret store0 ps = true) :
    (registerSeq now secret store0 ps).users.map (fun u => u.role) =
      match ps with
      | [] => []
      | _ :: rest => "admin" :: List.replicate rest.length "member" := by
  cases ps with
  | nil => rfl
  | cons p rest =>
    rw [allOk, Bool.and_eq_true] at hok
    obtain ⟨h1, h2⟩ := hok
    have hsnoc := register_roles_snoc store0 now secret p h1
    have hne1 : (register store0 now secret p).1.users ≠ [] :=
      register_ok_users_ne_nil store0 now secret p h1
    rw [registerSeq, registerSeq_roles_member now secret rest _ hne1 h2, hsnoc]
    simp [store0]

/-- C3 witness: two successful registrations from the empty store yield the
role list ["admin", "member"]. -/
theorem first_user_admin_rest_member_witness :
    allOk 0 "k" store0 [⟨"a@x", "p1", none⟩, ⟨"b@x", "p2", none⟩] = true ∧
    (registerSeq 0 "k" store0 [⟨"a@x", "p1", none⟩, ⟨"b@x", "p2", none⟩]).users.map
      (fun u => u.role) = ["admin", "member"] :=
  ⟨rfl, by
    simpa using
      first_user_admin_rest_member 0 "k" [⟨"a@x", "p1", none⟩, ⟨"b@x", "p2", none⟩] rfl⟩

-- ---------- C6: access-gate error paths ----------

/-- C6 counterexample: a request carrying an Authorization header that is the
empty string has no space-separated second part (its split has length 1), yet
the endpoint answers 401 "Missing Authorization header" — not an
invalid-token detail — because Python `if not authorization` treats the empty
header like a missing one.  Stated at a concrete decode, handler and store. -/
theorem access_gate_empty_header_counterexample :
    (pySplitSpace "").length = 1 ∧
    protectedEndpoint (fun _ => Except.error TokenErr.malformed)
        (fun _ st => (st, (0 : Nat))) (some "") store0 =
      (store0, .error ⟨401, "Missing Authorization header"⟩) ∧
    pyStartsWith "Invalid token" "Missing Authorization header" = false :=
  ⟨rfl, rfl, by decide⟩

/-- C6 as amended: a request with no Authorization header, or whose header is
the empty string, fails with 401 and detail exactly
"Missing Authorization header"; a request with a non-empty header whose
scheme token (compared case-insensitively) is not "bearer", or that has no
space-separated second part, fails with 401 and an invalid-token detail.  In
every such case the handler never runs and the store is unchanged, for every
protected endpoint. -/
theorem access_gate_error_paths {α : Type} (decode : String → Except TokenErr String)
    (handler : UserRec → Store → Store × α) (s : Store) :
    protectedEndpoint decode handler none s =
      (s, .error ⟨401, "Missing Authorization header"⟩) ∧
    protectedEndpoint decode handler (some "") s =
      (s, .error ⟨401, "Missing Authorization header"⟩) ∧
    (∀ hdr scheme tok, hdr ≠ "" → pySplitSpace hdr = [scheme, tok] →
      pyLower scheme ≠ "bearer" →
      protectedEndpoint decode handler (some hdr) s =
        (s, .error ⟨401, "Invalid token: Invalid auth scheme"⟩)) ∧
    (∀ hdr, hdr ≠ "" → (pySplitSpace hdr).length = 1 →
      protectedEndpoint decode handler (some hdr) s =
        (s, .error ⟨401,
          "Invalid token: not enough values to unpack (expected 2, got 1)"⟩)) := by
  refine ⟨rfl, rfl, ?_, ?_⟩
  · intro hdr scheme tok hne hsplit hscheme
    rw [protectedEndpoint, get_current_user]
    simp only [hne, if_neg, hsplit, reduceCtorEq, reduceIte, hscheme, ite_not]
  · intro hdr hne hlen
    rw [protectedEndpoint, get_current_user]
    cases hsp : pySplitSpace hdr with
    | nil => rw [hsp] at hlen; simp at hlen
    | cons a l =>
      cases l with
      | nil => simp [hne, hsp]
      | cons b l2 => rw [hsp] at hlen; simp at hlen

/-- C6 witness: the three failure shapes at concrete inputs — no header, the
header "Token abc" (wrong scheme), and the header "Bearer" (no second
part). -/
theorem access_gate_error_paths_witness :
    (("Token abc" : String) ≠ "" ∧ pySplitSpace "Token abc" = ["Token", "abc"] ∧
      pyLower "Token" ≠ "bearer") ∧
    (("Bearer" : String) ≠ "" ∧ (pySplitSpace "Bearer").length = 1) ∧
    protectedEndpoint (fun _ => Except.error TokenErr.malformed)
        (fun _ st => (st, (0 : Nat))) none store0 =
      (store0, .error ⟨401, "Missing Authorization header"⟩) ∧
    protectedEndpoint (fun _ => Except.error TokenErr.malformed)
        (fun _ st => (st, (0 : Nat))) (some "Token abc") store0 =
      (store0, .error ⟨401, "Invalid token: Invalid auth scheme"⟩) ∧
    protectedEndpoint (fun _ => Except.error TokenErr.malformed)
        (fun _ st => (st, (0 : Nat))) (some "Bearer") store0 =
      (store0, .error ⟨401,
        "Invalid token: not enough values to unpack (expected 2, got 1)"⟩) :=
  ⟨⟨by decide, by decide, by decide⟩, ⟨by decide, by decide⟩,
   (access_gate_error_paths (fun _ => Except.error TokenErr.malformed)
     (fun _ st => (st, (0 : Nat))) store0).1,
   (access_gate_error_paths (fun _ => Except.error TokenErr.malformed)
     (fun _ st => (st, (0 : Nat))) store0).2.2.1 "Token abc" "Token" "abc"
     (by decide) (by decide) (by decide),
   (access_gate_error_paths (fun _ => Except.error TokenErr.malformed)
     (fun _ st => (st, (0 : Nat))) store0).2.2.2 "Bearer" (by decide) (by decide)⟩

-- ---------- C9: default name from the email's local part ----------

/-- `pySplitChar` never returns the empty list of pieces. -/
theorem pySplitChar_ne_nil (sep : Char) (l : List Char) : pySplitChar sep l ≠ [] := by
  cases l with
  | nil => simp [pySplitChar]
  | cons c cs =>
    rw [pySplitChar]
    by_cases h : c = sep
    · simp [h]
    · rw [if_neg h]
      cases pySplitChar sep cs <;> simp

/-- The first piece of a Python split is the prefix before the first
occurrence of the separator. -/
theorem pySplitChar_headD_takeWhile (sep : Char) :
    ∀ l : List Char,
      (pySplitChar sep l).headD [] = l.takeWhile (fun c => c ≠ sep)
  | [] => rfl
  | c :: cs => by
    rw [pySplitChar, List.takeWhile_cons]
    by_cases h : c = sep
    · simp [h]
    · rw [if_neg h]
      have ih := pySplitChar_headD_takeWhile sep cs
      cases hsp : pySplitChar sep cs with
      | nil => exact absurd hsp (pySplitChar_ne_nil sep cs)
      | cons w ws =>
        rw [hsp] at ih
        simp only [List.headD_cons, decide_not] at ih
        simp [h, ih]

/-- C9 counterexample: registering with the supplied name "" (a name the
claim says is stored unchanged) and email "a@b" stores the name "a", the
email's local part, not the supplied "". -/
theorem register_supplied_empty_name_counterexample :
    (register store0 0 "k" { email := "a@b", password := "pw", name := some "" }).1.users.map
      (fun u => u.name) = ["a"] ∧ ("a" : String) ≠ "" :=
  ⟨rfl, by decide⟩

/-- C9 as amended: on a successful registration the stored user's name is the
supplied name when that name is present and non-empty, and otherwise (name
omitted, null, or the empty string — Python `or` treats "" as falsy) the
prefix of the email before its first "@". -/
theorem register_name_default (s : Store) (now : Nat) (secret : String)
    (payload : AuthPayload) (hok : isOkB (register s now secret payload).2 = true) :
    ∃ u : UserRec, (register s now secret payload).1.users = s.users ++ [u] ∧
      u.name = match payload.name with
        | some n =>
          if n = "" then
            String.mk (payload.email.toList.takeWhile (fun c => c ≠ '@'))
          else n
        | none => String.mk (payload.email.toList.takeWhile (fun c => c ≠ '@')) := by
  by_cases hd : ((s.users.filter (fun u => u.email == payload.email)).take 1).isEmpty = false
  · rw [register, if_pos hd] at hok
    simp [isOkB] at hok
  · cases hh : hash_password payload.password with
    | error e =>
      rw [register, if_neg hd, hh] at hok
      simp [isOkB] at hok
    | ok hashed =>
      rw [register, if_neg hd, hh]
      refine ⟨_, rfl, ?_⟩
      show pyOr payload.name
          (String.mk ((pySplitChar '@' payload.email.toList).headD [])) = _
      rw [pySplitChar_headD_takeWhile]
      cases payload.name with
      | none => rfl
      | some n => rfl

/-- C9 witness: a successful registration with no supplied name and email
"ann@example.com" stores the name "ann". -/
theorem register_name_default_witness :
    isOkB (register store0 0 "k"
      { email := "ann@example.com", password := "pw", name := none }).2 = true ∧
    ∃ u : UserRec,
      (register store0 0 "k"
        { email := "ann@example.com", password := "pw", name := none }).1.users =
        store0.users ++ [u] ∧
      u.name = match (AuthPayload.mk "ann@example.com" "pw" none).name with
        | some n =>
          if n = "" then
            String.mk ((AuthPayload.mk "ann@example.com" "pw" none).email.toList.takeWhile
              (fun c => c ≠ '@'))
          else n
        | none =>
          String.mk ((AuthPayload.mk "ann@example.com" "pw" none).email.toList.takeWhile
            (fun c => c ≠ '@')) :=
  ⟨rfl, register_name_default store0 0 "k"
    (AuthPayload.mk "ann@example.com" "pw" none) rfl⟩
